import Mathlib

/-!
Shallow embedding of `src/middleware/logger/config.go` from the fiber
logger middleware.

Modelling conventions:
- `io.Writer` values (`Stream`) are modelled as `Option Nat`: `none` is the
  Go `nil` interface value; `some 0` stands for the distinguished
  `os.Stdout` handle; any `some n` with `n ≠ 0` is some other writer.
  Go's `==` on these interface values is pointer identity, which `Option
  Nat` equality models.
- Function-typed fields (`Next`, `Skip`, `Done`, `BeforeHandlerFunc`,
  `LoggerFunc`) are modelled as `Option Nat`: `none` is Go `nil`, and each
  named function value of the source gets a distinct code.
- `CustomTags : map[string]LogFunc` is modelled as
  `Option (List (String × Nat))`: `none` is a nil map. `configDefault`
  never reads or writes this field, so only identity preservation matters.
- `time.Duration` is an `int64` count of nanoseconds; on a 64-bit platform
  the source's `int(cfg.TimeInterval)` is the identity, so `TimeInterval`
  is an `Int`.
- `*time.Location` (`timeZoneLocation`) is `Option Nat`, untouched by
  `configDefault`.
-/

/-- Code for the Go function value `beforeHandlerFunc` (the package-level
default for `Config.BeforeHandlerFunc`). -/
def beforeHandlerFunc : Nat := 1

/-- Code for the Go function value `defaultLoggerInstance` (the
package-level default for `Config.LoggerFunc`). -/
def defaultLoggerInstance : Nat := 2

/-- Code for the distinguished writer `os.Stdout`. -/
def osStdout : Nat := 0

/-- Nanoseconds in one `time.Millisecond`. -/
def millisecond : Int := 1000000

/-- The Go struct `Config` of the logger middleware, field for field. -/
structure Config where
  Stream : Option Nat
  Next : Option Nat
  Skip : Option Nat
  Done : Option Nat
  CustomTags : Option (List (String × Nat))
  BeforeHandlerFunc : Option Nat
  LoggerFunc : Option Nat
  timeZoneLocation : Option Nat
  Format : String
  TimeFormat : String
  TimeZone : String
  TimeInterval : Int
  DisableColors : Bool
  enableColors : Bool
  enableLatency : Bool
deriving DecidableEq, Repr

attribute [ext] Config

/-- The package-level string `defaultFormat`, the default logging format. -/
def defaultFormat : String :=
  "[${time}] ${ip} ${status} - ${latency} ${method} ${path} ${error}\n"

/-- The package-level variable `ConfigDefault`. Fields absent from the Go
composite literal take their Go zero value (`nil` map and location, false
booleans). -/
def ConfigDefault : Config where
  Stream := some osStdout
  Next := none
  Skip := none
  Done := none
  CustomTags := none
  BeforeHandlerFunc := some beforeHandlerFunc
  LoggerFunc := some defaultLoggerInstance
  timeZoneLocation := none
  Format := defaultFormat
  TimeFormat := "15:04:05"
  TimeZone := "Local"
  TimeInterval := 500 * millisecond
  DisableColors := false
  enableColors := true
  enableLatency := false

/-- One statement of the Go `configDefault`: if the condition holds,
overwrite the `Next` field, otherwise leave the config unchanged. -/
def mergeNext (cfg : Config) : Config :=
  if cfg.Next = none then { cfg with Next := ConfigDefault.Next } else cfg

/-- One statement of the Go `configDefault`: if the condition holds,
overwrite the `Skip` field, otherwise leave the config unchanged. -/
def mergeSkip (cfg : Config) : Config :=
  if cfg.Skip = none then { cfg with Skip := ConfigDefault.Skip } else cfg

/-- One statement of the Go `configDefault`: if the condition holds,
overwrite the `Done` field, otherwise leave the config unchanged. -/
def mergeDone (cfg : Config) : Config :=
  if cfg.Done = none then { cfg with Done := ConfigDefault.Done } else cfg

/-- One statement of the Go `configDefault`: if the condition holds,
overwrite the `Format` field, otherwise leave the config unchanged. -/
def mergeFormat (cfg : Config) : Config :=
  if cfg.Format = "" then { cfg with Format := ConfigDefault.Format } else cfg

/-- One statement of the Go `configDefault`: if the condition holds,
overwrite the `TimeZone` field, otherwise leave the config unchanged. -/
def mergeTimeZone (cfg : Config) : Config :=
  if cfg.TimeZone = "" then { cfg with TimeZone := ConfigDefault.TimeZone } else cfg

/-- One statement of the Go `configDefault`: if the condition holds,
overwrite the `TimeFormat` field, otherwise leave the config unchanged. -/
def mergeTimeFormat (cfg : Config) : Config :=
  if cfg.TimeFormat = "" then { cfg with TimeFormat := ConfigDefault.TimeFormat } else cfg

/-- One statement of the Go `configDefault`: if the condition holds,
overwrite the `TimeInterval` field, otherwise leave the config unchanged. -/
def mergeTimeInterval (cfg : Config) : Config :=
  if cfg.TimeInterval ≤ 0 then { cfg with TimeInterval := ConfigDefault.TimeInterval } else cfg

/-- One statement of the Go `configDefault`: if the condition holds,
overwrite the `Stream` field, otherwise leave the config unchanged. -/
def mergeStream (cfg : Config) : Config :=
  if cfg.Stream = none then { cfg with Stream := ConfigDefault.Stream } else cfg

/-- One statement of the Go `configDefault`: if the condition holds,
overwrite the `BeforeHandlerFunc` field, otherwise leave the config unchanged. -/
def mergeBeforeHandlerFunc (cfg : Config) : Config :=
  if cfg.BeforeHandlerFunc = none then { cfg with BeforeHandlerFunc := ConfigDefault.BeforeHandlerFunc } else cfg

/-- One statement of the Go `configDefault`: if the condition holds,
overwrite the `LoggerFunc` field, otherwise leave the config unchanged. -/
def mergeLoggerFunc (cfg : Config) : Config :=
  if cfg.LoggerFunc = none then { cfg with LoggerFunc := ConfigDefault.LoggerFunc } else cfg

/-- One statement of the Go `configDefault`: if the condition holds,
overwrite the `enableColors` field, otherwise leave the config unchanged. -/
def enableColorsStep (cfg : Config) : Config :=
  if ¬cfg.DisableColors ∧ cfg.Stream = ConfigDefault.Stream then { cfg with enableColors := true } else cfg

/-- The Go variadic helper `configDefault(config ...Config) Config`,
translated statement by statement: the empty-argument early return, then
the chain of zero-value checks (each one of the `merge` steps above, in
the order they appear in the source) that overwrite unset fields with the
corresponding `ConfigDefault` field, and finally the color-enabling
conditional (`enableColorsStep`). -/
def configDefault (config : List Config) : Config :=
  match config with
  | [] => ConfigDefault
  | cfg :: _ =>
    enableColorsStep (mergeLoggerFunc (mergeBeforeHandlerFunc (mergeStream
      (mergeTimeInterval (mergeTimeFormat (mergeTimeZone (mergeFormat
        (mergeDone (mergeSkip (mergeNext cfg))))))))))

/-- A `Config` in which every field holds its Go zero value: what a caller
gets from `logger.Config{}` with no field set. -/
def zeroConfig : Config where
  Stream := none
  Next := none
  Skip := none
  Done := none
  CustomTags := none
  BeforeHandlerFunc := none
  LoggerFunc := none
  timeZoneLocation := none
  Format := ""
  TimeFormat := ""
  TimeZone := ""
  TimeInterval := 0
  DisableColors := false
  enableColors := false
  enableLatency := false

/-- A `Config` in which every field is explicitly set to a non-zero value:
a writer other than `os.Stdout`, non-nil callbacks, a one-entry custom tag
map, non-empty strings, a positive interval, and both boolean flags on. -/
def customConfig : Config where
  Stream := some 7
  Next := some 3
  Skip := some 4
  Done := some 5
  CustomTags := some [("tag", 9)]
  BeforeHandlerFunc := some 6
  LoggerFunc := some 8
  timeZoneLocation := some 1
  Format := "${path}"
  TimeFormat := "2006-01-02"
  TimeZone := "UTC"
  TimeInterval := 42
  DisableColors := true
  enableColors := true
  enableLatency := true

@[simp] lemma mergeNext_Stream (cfg : Config) :
    (mergeNext cfg).Stream = cfg.Stream := by
  unfold mergeNext; split_ifs <;> rfl

@[simp] lemma mergeNext_Next (cfg : Config) :
    (mergeNext cfg).Next = if cfg.Next = none then ConfigDefault.Next else cfg.Next := by
  unfold mergeNext; split_ifs <;> rfl

@[simp] lemma mergeNext_Skip (cfg : Config) :
    (mergeNext cfg).Skip = cfg.Skip := by
  unfold mergeNext; split_ifs <;> rfl

@[simp] lemma mergeNext_Done (cfg : Config) :
    (mergeNext cfg).Done = cfg.Done := by
  unfold mergeNext; split_ifs <;> rfl

@[simp] lemma mergeNext_CustomTags (cfg : Config) :
    (mergeNext cfg).CustomTags = cfg.CustomTags := by
  unfold mergeNext; split_ifs <;> rfl

@[simp] lemma mergeNext_BeforeHandlerFunc (cfg : Config) :
    (mergeNext cfg).BeforeHandlerFunc = cfg.BeforeHandlerFunc := by
  unfold mergeNext; split_ifs <;> rfl

@[simp] lemma mergeNext_LoggerFunc (cfg : Config) :
    (mergeNext cfg).LoggerFunc = cfg.LoggerFunc := by
  unfold mergeNext; split_ifs <;> rfl

@[simp] lemma mergeNext_timeZoneLocation (cfg : Config) :
    (mergeNext cfg).timeZoneLocation = cfg.timeZoneLocation := by
  unfold mergeNext; split_ifs <;> rfl

@[simp] lemma mergeNext_Format (cfg : Config) :
    (mergeNext cfg).Format = cfg.Format := by
  unfold mergeNext; split_ifs <;> rfl

@[simp] lemma mergeNext_TimeFormat (cfg : Config) :
    (mergeNext cfg).TimeFormat = cfg.TimeFormat := by
  unfold mergeNext; split_ifs <;> rfl

@[simp] lemma mergeNext_TimeZone (cfg : Config) :
    (mergeNext cfg).TimeZone = cfg.TimeZone := by
  unfold mergeNext; split_ifs <;> rfl

@[simp] lemma mergeNext_TimeInterval (cfg : Config) :
    (mergeNext cfg).TimeInterval = cfg.TimeInterval := by
  unfold mergeNext; split_ifs <;> rfl

@[simp] lemma mergeNext_DisableColors (cfg : Config) :
    (mergeNext cfg).DisableColors = cfg.DisableColors := by
  unfold mergeNext; split_ifs <;> rfl

@[simp] lemma mergeNext_enableColors (cfg : Config) :
    (mergeNext cfg).enableColors = cfg.enableColors := by
  unfold mergeNext; split_ifs <;> rfl

@[simp] lemma mergeNext_enableLatency (cfg : Config) :
    (mergeNext cfg).enableLatency = cfg.enableLatency := by
  unfold mergeNext; split_ifs <;> rfl

@[simp] lemma mergeSkip_Stream (cfg : Config) :
    (mergeSkip cfg).Stream = cfg.Stream := by
  unfold mergeSkip; split_ifs <;> rfl

@[simp] lemma mergeSkip_Next (cfg : Config) :
    (mergeSkip cfg).Next = cfg.Next := by
  unfold mergeSkip; split_ifs <;> rfl

@[simp] lemma mergeSkip_Skip (cfg : Config) :
    (mergeSkip cfg).Skip = if cfg.Skip = none then ConfigDefault.Skip else cfg.Skip := by
  unfold mergeSkip; split_ifs <;> rfl

@[simp] lemma mergeSkip_Done (cfg : Config) :
    (mergeSkip cfg).Done = cfg.Done := by
  unfold mergeSkip; split_ifs <;> rfl

@[simp] lemma mergeSkip_CustomTags (cfg : Config) :
    (mergeSkip cfg).CustomTags = cfg.CustomTags := by
  unfold mergeSkip; split_ifs <;> rfl

@[simp] lemma mergeSkip_BeforeHandlerFunc (cfg : Config) :
    (mergeSkip cfg).BeforeHandlerFunc = cfg.BeforeHandlerFunc := by
  unfold mergeSkip; split_ifs <;> rfl

@[simp] lemma mergeSkip_LoggerFunc (cfg : Config) :
    (mergeSkip cfg).LoggerFunc = cfg.LoggerFunc := by
  unfold mergeSkip; split_ifs <;> rfl

@[simp] lemma mergeSkip_timeZoneLocation (cfg : Config) :
    (mergeSkip cfg).timeZoneLocation = cfg.timeZoneLocation := by
  unfold mergeSkip; split_ifs <;> rfl

@[simp] lemma mergeSkip_Format (cfg : Config) :
    (mergeSkip cfg).Format = cfg.Format := by
  unfold mergeSkip; split_ifs <;> rfl

@[simp] lemma mergeSkip_TimeFormat (cfg : Config) :
    (mergeSkip cfg).TimeFormat = cfg.TimeFormat := by
  unfold mergeSkip; split_ifs <;> rfl

@[simp] lemma mergeSkip_TimeZone (cfg : Config) :
    (mergeSkip cfg).TimeZone = cfg.TimeZone := by
  unfold mergeSkip; split_ifs <;> rfl

@[simp] lemma mergeSkip_TimeInterval (cfg : Config) :
    (mergeSkip cfg).TimeInterval = cfg.TimeInterval := by
  unfold mergeSkip; split_ifs <;> rfl

@[simp] lemma mergeSkip_DisableColors (cfg : Config) :
    (mergeSkip cfg).DisableColors = cfg.DisableColors := by
  unfold mergeSkip; split_ifs <;> rfl

@[simp] lemma mergeSkip_enableColors (cfg : Config) :
    (mergeSkip cfg).enableColors = cfg.enableColors := by
  unfold mergeSkip; split_ifs <;> rfl

@[simp] lemma mergeSkip_enableLatency (cfg : Config) :
    (mergeSkip cfg).enableLatency = cfg.enableLatency := by
  unfold mergeSkip; split_ifs <;> rfl

@[simp] lemma mergeDone_Stream (cfg : Config) :
    (mergeDone cfg).Stream = cfg.Stream := by
  unfold mergeDone; split_ifs <;> rfl

@[simp] lemma mergeDone_Next (cfg : Config) :
    (mergeDone cfg).Next = cfg.Next := by
  unfold mergeDone; split_ifs <;> rfl

@[simp] lemma mergeDone_Skip (cfg : Config) :
    (mergeDone cfg).Skip = cfg.Skip := by
  unfold mergeDone; split_ifs <;> rfl

@[simp] lemma mergeDone_Done (cfg : Config) :
    (mergeDone cfg).Done = if cfg.Done = none then ConfigDefault.Done else cfg.Done := by
  unfold mergeDone; split_ifs <;> rfl

@[simp] lemma mergeDone_CustomTags (cfg : Config) :
    (mergeDone cfg).CustomTags = cfg.CustomTags := by
  unfold mergeDone; split_ifs <;> rfl

@[simp] lemma mergeDone_BeforeHandlerFunc (cfg : Config) :
    (mergeDone cfg).BeforeHandlerFunc = cfg.BeforeHandlerFunc := by
  unfold mergeDone; split_ifs <;> rfl

@[simp] lemma mergeDone_LoggerFunc (cfg : Config) :
    (mergeDone cfg).LoggerFunc = cfg.LoggerFunc := by
  unfold mergeDone; split_ifs <;> rfl

@[simp] lemma mergeDone_timeZoneLocation (cfg : Config) :
    (mergeDone cfg).timeZoneLocation = cfg.timeZoneLocation := by
  unfold mergeDone; split_ifs <;> rfl

@[simp] lemma mergeDone_Format (cfg : Config) :
    (mergeDone cfg).Format = cfg.Format := by
  unfold mergeDone; split_ifs <;> rfl

@[simp] lemma mergeDone_TimeFormat (cfg : Config) :
    (mergeDone cfg).TimeFormat = cfg.TimeFormat := by
  unfold mergeDone; split_ifs <;> rfl

@[simp] lemma mergeDone_TimeZone (cfg : Config) :
    (mergeDone cfg).TimeZone = cfg.TimeZone := by
  unfold mergeDone; split_ifs <;> rfl

@[simp] lemma mergeDone_TimeInterval (cfg : Config) :
    (mergeDone cfg).TimeInterval = cfg.TimeInterval := by
  unfold mergeDone; split_ifs <;> rfl

@[simp] lemma mergeDone_DisableColors (cfg : Config) :
    (mergeDone cfg).DisableColors = cfg.DisableColors := by
  unfold mergeDone; split_ifs <;> rfl

@[simp] lemma mergeDone_enableColors (cfg : Config) :
    (mergeDone cfg).enableColors = cfg.enableColors := by
  unfold mergeDone; split_ifs <;> rfl

@[simp] lemma mergeDone_enableLatency (cfg : Config) :
    (mergeDone cfg).enableLatency = cfg.enableLatency := by
  unfold mergeDone; split_ifs <;> rfl

@[simp] lemma mergeFormat_Stream (cfg : Config) :
    (mergeFormat cfg).Stream = cfg.Stream := by
  unfold mergeFormat; split_ifs <;> rfl

@[simp] lemma mergeFormat_Next (cfg : Config) :
    (mergeFormat cfg).Next = cfg.Next := by
  unfold mergeFormat; split_ifs <;> rfl

@[simp] lemma mergeFormat_Skip (cfg : Config) :
    (mergeFormat cfg).Skip = cfg.Skip := by
  unfold mergeFormat; split_ifs <;> rfl

@[simp] lemma mergeFormat_Done (cfg : Config) :
    (mergeFormat cfg).Done = cfg.Done := by
  unfold mergeFormat; split_ifs <;> rfl

@[simp] lemma mergeFormat_CustomTags (cfg : Config) :
    (mergeFormat cfg).CustomTags = cfg.CustomTags := by
  unfold mergeFormat; split_ifs <;> rfl

@[simp] lemma mergeFormat_BeforeHandlerFunc (cfg : Config) :
    (mergeFormat cfg).BeforeHandlerFunc = cfg.BeforeHandlerFunc := by
  unfold mergeFormat; split_ifs <;> rfl

@[simp] lemma mergeFormat_LoggerFunc (cfg : Config) :
    (mergeFormat cfg).LoggerFunc = cfg.LoggerFunc := by
  unfold mergeFormat; split_ifs <;> rfl

@[simp] lemma mergeFormat_timeZoneLocation (cfg : Config) :
    (mergeFormat cfg).timeZoneLocation = cfg.timeZoneLocation := by
  unfold mergeFormat; split_ifs <;> rfl

@[simp] lemma mergeFormat_Format (cfg : Config) :
    (mergeFormat cfg).Format = if cfg.Format = "" then ConfigDefault.Format else cfg.Format := by
  unfold mergeFormat; split_ifs <;> rfl

@[simp] lemma mergeFormat_TimeFormat (cfg : Config) :
    (mergeFormat cfg).TimeFormat = cfg.TimeFormat := by
  unfold mergeFormat; split_ifs <;> rfl

@[simp] lemma mergeFormat_TimeZone (cfg : Config) :
    (mergeFormat cfg).TimeZone = cfg.TimeZone := by
  unfold mergeFormat; split_ifs <;> rfl

@[simp] lemma mergeFormat_TimeInterval (cfg : Config) :
    (mergeFormat cfg).TimeInterval = cfg.TimeInterval := by
  unfold mergeFormat; split_ifs <;> rfl

@[simp] lemma mergeFormat_DisableColors (cfg : Config) :
    (mergeFormat cfg).DisableColors = cfg.DisableColors := by
  unfold mergeFormat; split_ifs <;> rfl

@[simp] lemma mergeFormat_enableColors (cfg : Config) :
    (mergeFormat cfg).enableColors = cfg.enableColors := by
  unfold mergeFormat; split_ifs <;> rfl

@[simp] lemma mergeFormat_enableLatency (cfg : Config) :
    (mergeFormat cfg).enableLatency = cfg.enableLatency := by
  unfold mergeFormat; split_ifs <;> rfl

@[simp] lemma mergeTimeZone_Stream (cfg : Config) :
    (mergeTimeZone cfg).Stream = cfg.Stream := by
  unfold mergeTimeZone; split_ifs <;> rfl

@[simp] lemma mergeTimeZone_Next (cfg : Config) :
    (mergeTimeZone cfg).Next = cfg.Next := by
  unfold mergeTimeZone; split_ifs <;> rfl

@[simp] lemma mergeTimeZone_Skip (cfg : Config) :
    (mergeTimeZone cfg).Skip = cfg.Skip := by
  unfold mergeTimeZone; split_ifs <;> rfl

@[simp] lemma mergeTimeZone_Done (cfg : Config) :
    (mergeTimeZone cfg).Done = cfg.Done := by
  unfold mergeTimeZone; split_ifs <;> rfl

@[simp] lemma mergeTimeZone_CustomTags (cfg : Config) :
    (mergeTimeZone cfg).CustomTags = cfg.CustomTags := by
  unfold mergeTimeZone; split_ifs <;> rfl

@[simp] lemma mergeTimeZone_BeforeHandlerFunc (cfg : Config) :
    (mergeTimeZone cfg).BeforeHandlerFunc = cfg.BeforeHandlerFunc := by
  unfold mergeTimeZone; split_ifs <;> rfl

@[simp] lemma mergeTimeZone_LoggerFunc (cfg : Config) :
    (mergeTimeZone cfg).LoggerFunc = cfg.LoggerFunc := by
  unfold mergeTimeZone; split_ifs <;> rfl

@[simp] lemma mergeTimeZone_timeZoneLocation (cfg : Config) :
    (mergeTimeZone cfg).timeZoneLocation = cfg.timeZoneLocation := by
  unfold mergeTimeZone; split_ifs <;> rfl

@[simp] lemma mergeTimeZone_Format (cfg : Config) :
    (mergeTimeZone cfg).Format = cfg.Format := by
  unfold mergeTimeZone; split_ifs <;> rfl

@[simp] lemma mergeTimeZone_TimeFormat (cfg : Config) :
    (mergeTimeZone cfg).TimeFormat = cfg.TimeFormat := by
  unfold mergeTimeZone; split_ifs <;> rfl

@[simp] lemma mergeTimeZone_TimeZone (cfg : Config) :
    (mergeTimeZone cfg).TimeZone = if cfg.TimeZone = "" then ConfigDefault.TimeZone else cfg.TimeZone := by
  unfold mergeTimeZone; split_ifs <;> rfl

@[simp] lemma mergeTimeZone_TimeInterval (cfg : Config) :
    (mergeTimeZone cfg).TimeInterval = cfg.TimeInterval := by
  unfold mergeTimeZone; split_ifs <;> rfl

@[simp] lemma mergeTimeZone_DisableColors (cfg : Config) :
    (mergeTimeZone cfg).DisableColors = cfg.DisableColors := by
  unfold mergeTimeZone; split_ifs <;> rfl

@[simp] lemma mergeTimeZone_enableColors (cfg : Config) :
    (mergeTimeZone cfg).enableColors = cfg.enableColors := by
  unfold mergeTimeZone; split_ifs <;> rfl

@[simp] lemma mergeTimeZone_enableLatency (cfg : Config) :
    (mergeTimeZone cfg).enableLatency = cfg.enableLatency := by
  unfold mergeTimeZone; split_ifs <;> rfl

@[simp] lemma mergeTimeFormat_Stream (cfg : Config) :
    (mergeTimeFormat cfg).Stream = cfg.Stream := by
  unfold mergeTimeFormat; split_ifs <;> rfl

@[simp] lemma mergeTimeFormat_Next (cfg : Config) :
    (mergeTimeFormat cfg).Next = cfg.Next := by
  unfold mergeTimeFormat; split_ifs <;> rfl

@[simp] lemma mergeTimeFormat_Skip (cfg : Config) :
    (mergeTimeFormat cfg).Skip = cfg.Skip := by
  unfold mergeTimeFormat; split_ifs <;> rfl

@[simp] lemma mergeTimeFormat_Done (cfg : Config) :
    (mergeTimeFormat cfg).Done = cfg.Done := by
  unfold mergeTimeFormat; split_ifs <;> rfl

@[simp] lemma mergeTimeFormat_CustomTags (cfg : Config) :
    (mergeTimeFormat cfg).CustomTags = cfg.CustomTags := by
  unfold mergeTimeFormat; split_ifs <;> rfl

@[simp] lemma mergeTimeFormat_BeforeHandlerFunc (cfg : Config) :
    (mergeTimeFormat cfg).BeforeHandlerFunc = cfg.BeforeHandlerFunc := by
  unfold mergeTimeFormat; split_ifs <;> rfl

@[simp] lemma mergeTimeFormat_LoggerFunc (cfg : Config) :
    (mergeTimeFormat cfg).LoggerFunc = cfg.LoggerFunc := by
  unfold mergeTimeFormat; split_ifs <;> rfl

@[simp] lemma mergeTimeFormat_timeZoneLocation (cfg : Config) :
    (mergeTimeFormat cfg).timeZoneLocation = cfg.timeZoneLocation := by
  unfold mergeTimeFormat; split_ifs <;> rfl

@[simp] lemma mergeTimeFormat_Format (cfg : Config) :
    (mergeTimeFormat cfg).Format = cfg.Format := by
  unfold mergeTimeFormat; split_ifs <;> rfl

@[simp] lemma mergeTimeFormat_TimeFormat (cfg : Config) :
    (mergeTimeFormat cfg).TimeFormat = if cfg.TimeFormat = "" then ConfigDefault.TimeFormat else cfg.TimeFormat := by
  unfold mergeTimeFormat; split_ifs <;> rfl

@[simp] lemma mergeTimeFormat_TimeZone (cfg : Config) :
    (mergeTimeFormat cfg).TimeZone = cfg.TimeZone := by
  unfold mergeTimeFormat; split_ifs <;> rfl

@[simp] lemma mergeTimeFormat_TimeInterval (cfg : Config) :
    (mergeTimeFormat cfg).TimeInterval = cfg.TimeInterval := by
  unfold mergeTimeFormat; split_ifs <;> rfl

@[simp] lemma mergeTimeFormat_DisableColors (cfg : Config) :
    (mergeTimeFormat cfg).DisableColors = cfg.DisableColors := by
  unfold mergeTimeFormat; split_ifs <;> rfl

@[simp] lemma mergeTimeFormat_enableColors (cfg : Config) :
    (mergeTimeFormat cfg).enableColors = cfg.enableColors := by
  unfold mergeTimeFormat; split_ifs <;> rfl

@[simp] lemma mergeTimeFormat_enableLatency (cfg : Config) :
    (mergeTimeFormat cfg).enableLatency = cfg.enableLatency := by
  unfold mergeTimeFormat; split_ifs <;> rfl

@[simp] lemma mergeTimeInterval_Stream (cfg : Config) :
    (mergeTimeInterval cfg).Stream = cfg.Stream := by
  unfold mergeTimeInterval; split_ifs <;> rfl

@[simp] lemma mergeTimeInterval_Next (cfg : Config) :
    (mergeTimeInterval cfg).Next = cfg.Next := by
  unfold mergeTimeInterval; split_ifs <;> rfl

@[simp] lemma mergeTimeInterval_Skip (cfg : Config) :
    (mergeTimeInterval cfg).Skip = cfg.Skip := by
  unfold mergeTimeInterval; split_ifs <;> rfl

@[simp] lemma mergeTimeInterval_Done (cfg : Config) :
    (mergeTimeInterval cfg).Done = cfg.Done := by
  unfold mergeTimeInterval; split_ifs <;> rfl

@[simp] lemma mergeTimeInterval_CustomTags (cfg : Config) :
    (mergeTimeInterval cfg).CustomTags = cfg.CustomTags := by
  unfold mergeTimeInterval; split_ifs <;> rfl

@[simp] lemma mergeTimeInterval_BeforeHandlerFunc (cfg : Config) :
    (mergeTimeInterval cfg).BeforeHandlerFunc = cfg.BeforeHandlerFunc := by
  unfold mergeTimeInterval; split_ifs <;> rfl

@[simp] lemma mergeTimeInterval_LoggerFunc (cfg : Config) :
    (mergeTimeInterval cfg).LoggerFunc = cfg.LoggerFunc := by
  unfold mergeTimeInterval; split_ifs <;> rfl

@[simp] lemma mergeTimeInterval_timeZoneLocation (cfg : Config) :
    (mergeTimeInterval cfg).timeZoneLocation = cfg.timeZoneLocation := by
  unfold mergeTimeInterval; split_ifs <;> rfl

@[simp] lemma mergeTimeInterval_Format (cfg : Config) :
    (mergeTimeInterval cfg).Format = cfg.Format := by
  unfold mergeTimeInterval; split_ifs <;> rfl

@[simp] lemma mergeTimeInterval_TimeFormat (cfg : Config) :
    (mergeTimeInterval cfg).TimeFormat = cfg.TimeFormat := by
  unfold mergeTimeInterval; split_ifs <;> rfl

@[simp] lemma mergeTimeInterval_TimeZone (cfg : Config) :
    (mergeTimeInterval cfg).TimeZone = cfg.TimeZone := by
  unfold mergeTimeInterval; split_ifs <;> rfl

@[simp] lemma mergeTimeInterval_TimeInterval (cfg : Config) :
    (mergeTimeInterval cfg).TimeInterval = if cfg.TimeInterval ≤ 0 then ConfigDefault.TimeInterval else cfg.TimeInterval := by
  unfold mergeTimeInterval; split_ifs <;> rfl

@[simp] lemma mergeTimeInterval_DisableColors (cfg : Config) :
    (mergeTimeInterval cfg).DisableColors = cfg.DisableColors := by
  unfold mergeTimeInterval; split_ifs <;> rfl

@[simp] lemma mergeTimeInterval_enableColors (cfg : Config) :
    (mergeTimeInterval cfg).enableColors = cfg.enableColors := by
  unfold mergeTimeInterval; split_ifs <;> rfl

@[simp] lemma mergeTimeInterval_enableLatency (cfg : Config) :
    (mergeTimeInterval cfg).enableLatency = cfg.enableLatency := by
  unfold mergeTimeInterval; split_ifs <;> rfl

@[simp] lemma mergeStream_Stream (cfg : Config) :
    (mergeStream cfg).Stream = if cfg.Stream = none then ConfigDefault.Stream else cfg.Stream := by
  unfold mergeStream; split_ifs <;> rfl

@[simp] lemma mergeStream_Next (cfg : Config) :
    (mergeStream cfg).Next = cfg.Next := by
  unfold mergeStream; split_ifs <;> rfl

@[simp] lemma mergeStream_Skip (cfg : Config) :
    (mergeStream cfg).Skip = cfg.Skip := by
  unfold mergeStream; split_ifs <;> rfl

@[simp] lemma mergeStream_Done (cfg : Config) :
    (mergeStream cfg).Done = cfg.Done := by
  unfold mergeStream; split_ifs <;> rfl

@[simp] lemma mergeStream_CustomTags (cfg : Config) :
    (mergeStream cfg).CustomTags = cfg.CustomTags := by
  unfold mergeStream; split_ifs <;> rfl

@[simp] lemma mergeStream_BeforeHandlerFunc (cfg : Config) :
    (mergeStream cfg).BeforeHandlerFunc = cfg.BeforeHandlerFunc := by
  unfold mergeStream; split_ifs <;> rfl

@[simp] lemma mergeStream_LoggerFunc (cfg : Config) :
    (mergeStream cfg).LoggerFunc = cfg.LoggerFunc := by
  unfold mergeStream; split_ifs <;> rfl

@[simp] lemma mergeStream_timeZoneLocation (cfg : Config) :
    (mergeStream cfg).timeZoneLocation = cfg.timeZoneLocation := by
  unfold mergeStream; split_ifs <;> rfl

@[simp] lemma mergeStream_Format (cfg : Config) :
    (mergeStream cfg).Format = cfg.Format := by
  unfold mergeStream; split_ifs <;> rfl

@[simp] lemma mergeStream_TimeFormat (cfg : Config) :
    (mergeStream cfg).TimeFormat = cfg.TimeFormat := by
  unfold mergeStream; split_ifs <;> rfl

@[simp] lemma mergeStream_TimeZone (cfg : Config) :
    (mergeStream cfg).TimeZone = cfg.TimeZone := by
  unfold mergeStream; split_ifs <;> rfl

@[simp] lemma mergeStream_TimeInterval (cfg : Config) :
    (mergeStream cfg).TimeInterval = cfg.TimeInterval := by
  unfold mergeStream; split_ifs <;> rfl

@[simp] lemma mergeStream_DisableColors (cfg : Config) :
    (mergeStream cfg).DisableColors = cfg.DisableColors := by
  unfold mergeStream; split_ifs <;> rfl

@[simp] lemma mergeStream_enableColors (cfg : Config) :
    (mergeStream cfg).enableColors = cfg.enableColors := by
  unfold mergeStream; split_ifs <;> rfl

@[simp] lemma mergeStream_enableLatency (cfg : Config) :
    (mergeStream cfg).enableLatency = cfg.enableLatency := by
  unfold mergeStream; split_ifs <;> rfl

@[simp] lemma mergeBeforeHandlerFunc_Stream (cfg : Config) :
    (mergeBeforeHandlerFunc cfg).Stream = cfg.Stream := by
  unfold mergeBeforeHandlerFunc; split_ifs <;> rfl

@[simp] lemma mergeBeforeHandlerFunc_Next (cfg : Config) :
    (mergeBeforeHandlerFunc cfg).Next = cfg.Next := by
  unfold mergeBeforeHandlerFunc; split_ifs <;> rfl

@[simp] lemma mergeBeforeHandlerFunc_Skip (cfg : Config) :
    (mergeBeforeHandlerFunc cfg).Skip = cfg.Skip := by
  unfold mergeBeforeHandlerFunc; split_ifs <;> rfl

@[simp] lemma mergeBeforeHandlerFunc_Done (cfg : Config) :
    (mergeBeforeHandlerFunc cfg).Done = cfg.Done := by
  unfold mergeBeforeHandlerFunc; split_ifs <;> rfl

@[simp] lemma mergeBeforeHandlerFunc_CustomTags (cfg : Config) :
    (mergeBeforeHandlerFunc cfg).CustomTags = cfg.CustomTags := by
  unfold mergeBeforeHandlerFunc; split_ifs <;> rfl

@[simp] lemma mergeBeforeHandlerFunc_BeforeHandlerFunc (cfg : Config) :
    (mergeBeforeHandlerFunc cfg).BeforeHandlerFunc = if cfg.BeforeHandlerFunc = none then ConfigDefault.BeforeHandlerFunc else cfg.BeforeHandlerFunc := by
  unfold mergeBeforeHandlerFunc; split_ifs <;> rfl

@[simp] lemma mergeBeforeHandlerFunc_LoggerFunc (cfg : Config) :
    (mergeBeforeHandlerFunc cfg).LoggerFunc = cfg.LoggerFunc := by
  unfold mergeBeforeHandlerFunc; split_ifs <;> rfl

@[simp] lemma mergeBeforeHandlerFunc_timeZoneLocation (cfg : Config) :
    (mergeBeforeHandlerFunc cfg).timeZoneLocation = cfg.timeZoneLocation := by
  unfold mergeBeforeHandlerFunc; split_ifs <;> rfl

@[simp] lemma mergeBeforeHandlerFunc_Format (cfg : Config) :
    (mergeBeforeHandlerFunc cfg).Format = cfg.Format := by
  unfold mergeBeforeHandlerFunc; split_ifs <;> rfl

@[simp] lemma mergeBeforeHandlerFunc_TimeFormat (cfg : Config) :
    (mergeBeforeHandlerFunc cfg).TimeFormat = cfg.TimeFormat := by
  unfold mergeBeforeHandlerFunc; split_ifs <;> rfl

@[simp] lemma mergeBeforeHandlerFunc_TimeZone (cfg : Config) :
    (mergeBeforeHandlerFunc cfg).TimeZone = cfg.TimeZone := by
  unfold mergeBeforeHandlerFunc; split_ifs <;> rfl

@[simp] lemma mergeBeforeHandlerFunc_TimeInterval (cfg : Config) :
    (mergeBeforeHandlerFunc cfg).TimeInterval = cfg.TimeInterval := by
  unfold mergeBeforeHandlerFunc; split_ifs <;> rfl

@[simp] lemma mergeBeforeHandlerFunc_DisableColors (cfg : Config) :
    (mergeBeforeHandlerFunc cfg).DisableColors = cfg.DisableColors := by
  unfold mergeBeforeHandlerFunc; split_ifs <;> rfl

@[simp] lemma mergeBeforeHandlerFunc_enableColors (cfg : Config) :
    (mergeBeforeHandlerFunc cfg).enableColors = cfg.enableColors := by
  unfold mergeBeforeHandlerFunc; split_ifs <;> rfl

@[simp] lemma mergeBeforeHandlerFunc_enableLatency (cfg : Config) :
    (mergeBeforeHandlerFunc cfg).enableLatency = cfg.enableLatency := by
  unfold mergeBeforeHandlerFunc; split_ifs <;> rfl

@[simp] lemma mergeLoggerFunc_Stream (cfg : Config) :
    (mergeLoggerFunc cfg).Stream = cfg.Stream := by
  unfold mergeLoggerFunc; split_ifs <;> rfl

@[simp] lemma mergeLoggerFunc_Next (cfg : Config) :
    (mergeLoggerFunc cfg).Next = cfg.Next := by
  unfold mergeLoggerFunc; split_ifs <;> rfl

@[simp] lemma mergeLoggerFunc_Skip (cfg : Config) :
    (mergeLoggerFunc cfg).Skip = cfg.Skip := by
  unfold mergeLoggerFunc; split_ifs <;> rfl

@[simp] lemma mergeLoggerFunc_Done (cfg : Config) :
    (mergeLoggerFunc cfg).Done = cfg.Done := by
  unfold mergeLoggerFunc; split_ifs <;> rfl

@[simp] lemma mergeLoggerFunc_CustomTags (cfg : Config) :
    (mergeLoggerFunc cfg).CustomTags = cfg.CustomTags := by
  unfold mergeLoggerFunc; split_ifs <;> rfl

@[simp] lemma mergeLoggerFunc_BeforeHandlerFunc (cfg : Config) :
    (mergeLoggerFunc cfg).BeforeHandlerFunc = cfg.BeforeHandlerFunc := by
  unfold mergeLoggerFunc; split_ifs <;> rfl

@[simp] lemma mergeLoggerFunc_LoggerFunc (cfg : Config) :
    (mergeLoggerFunc cfg).LoggerFunc = if cfg.LoggerFunc = none then ConfigDefault.LoggerFunc else cfg.LoggerFunc := by
  unfold mergeLoggerFunc; split_ifs <;> rfl

@[simp] lemma mergeLoggerFunc_timeZoneLocation (cfg : Config) :
    (mergeLoggerFunc cfg).timeZoneLocation = cfg.timeZoneLocation := by
  unfold mergeLoggerFunc; split_ifs <;> rfl

@[simp] lemma mergeLoggerFunc_Format (cfg : Config) :
    (mergeLoggerFunc cfg).Format = cfg.Format := by
  unfold mergeLoggerFunc; split_ifs <;> rfl

@[simp] lemma mergeLoggerFunc_TimeFormat (cfg : Config) :
    (mergeLoggerFunc cfg).TimeFormat = cfg.TimeFormat := by
  unfold mergeLoggerFunc; split_ifs <;> rfl

@[simp] lemma mergeLoggerFunc_TimeZone (cfg : Config) :
    (mergeLoggerFunc cfg).TimeZone = cfg.TimeZone := by
  unfold mergeLoggerFunc; split_ifs <;> rfl

@[simp] lemma mergeLoggerFunc_TimeInterval (cfg : Config) :
    (mergeLoggerFunc cfg).TimeInterval = cfg.TimeInterval := by
  unfold mergeLoggerFunc; split_ifs <;> rfl

@[simp] lemma mergeLoggerFunc_DisableColors (cfg : Config) :
    (mergeLoggerFunc cfg).DisableColors = cfg.DisableColors := by
  unfold mergeLoggerFunc; split_ifs <;> rfl

@[simp] lemma mergeLoggerFunc_enableColors (cfg : Config) :
    (mergeLoggerFunc cfg).enableColors = cfg.enableColors := by
  unfold mergeLoggerFunc; split_ifs <;> rfl

@[simp] lemma mergeLoggerFunc_enableLatency (cfg : Config) :
    (mergeLoggerFunc cfg).enableLatency = cfg.enableLatency := by
  unfold mergeLoggerFunc; split_ifs <;> rfl

@[simp] lemma enableColorsStep_Stream (cfg : Config) :
    (enableColorsStep cfg).Stream = cfg.Stream := by
  unfold enableColorsStep; split_ifs <;> rfl

@[simp] lemma enableColorsStep_Next (cfg : Config) :
    (enableColorsStep cfg).Next = cfg.Next := by
  unfold enableColorsStep; split_ifs <;> rfl

@[simp] lemma enableColorsStep_Skip (cfg : Config) :
    (enableColorsStep cfg).Skip = cfg.Skip := by
  unfold enableColorsStep; split_ifs <;> rfl

@[simp] lemma enableColorsStep_Done (cfg : Config) :
    (enableColorsStep cfg).Done = cfg.Done := by
  unfold enableColorsStep; split_ifs <;> rfl

@[simp] lemma enableColorsStep_CustomTags (cfg : Config) :
    (enableColorsStep cfg).CustomTags = cfg.CustomTags := by
  unfold enableColorsStep; split_ifs <;> rfl

@[simp] lemma enableColorsStep_BeforeHandlerFunc (cfg : Config) :
    (enableColorsStep cfg).BeforeHandlerFunc = cfg.BeforeHandlerFunc := by
  unfold enableColorsStep; split_ifs <;> rfl

@[simp] lemma enableColorsStep_LoggerFunc (cfg : Config) :
    (enableColorsStep cfg).LoggerFunc = cfg.LoggerFunc := by
  unfold enableColorsStep; split_ifs <;> rfl

@[simp] lemma enableColorsStep_timeZoneLocation (cfg : Config) :
    (enableColorsStep cfg).timeZoneLocation = cfg.timeZoneLocation := by
  unfold enableColorsStep; split_ifs <;> rfl

@[simp] lemma enableColorsStep_Format (cfg : Config) :
    (enableColorsStep cfg).Format = cfg.Format := by
  unfold enableColorsStep; split_ifs <;> rfl

@[simp] lemma enableColorsStep_TimeFormat (cfg : Config) :
    (enableColorsStep cfg).TimeFormat = cfg.TimeFormat := by
  unfold enableColorsStep; split_ifs <;> rfl

@[simp] lemma enableColorsStep_TimeZone (cfg : Config) :
    (enableColorsStep cfg).TimeZone = cfg.TimeZone := by
  unfold enableColorsStep; split_ifs <;> rfl

@[simp] lemma enableColorsStep_TimeInterval (cfg : Config) :
    (enableColorsStep cfg).TimeInterval = cfg.TimeInterval := by
  unfold enableColorsStep; split_ifs <;> rfl

@[simp] lemma enableColorsStep_DisableColors (cfg : Config) :
    (enableColorsStep cfg).DisableColors = cfg.DisableColors := by
  unfold enableColorsStep; split_ifs <;> rfl

@[simp] lemma enableColorsStep_enableColors (cfg : Config) :
    (enableColorsStep cfg).enableColors = if ¬cfg.DisableColors ∧ cfg.Stream = ConfigDefault.Stream then true else cfg.enableColors := by
  unfold enableColorsStep; split_ifs <;> rfl

@[simp] lemma enableColorsStep_enableLatency (cfg : Config) :
    (enableColorsStep cfg).enableLatency = cfg.enableLatency := by
  unfold enableColorsStep; split_ifs <;> rfl

lemma configDefault_Stream (cfg : Config) :
    (configDefault [cfg]).Stream = if cfg.Stream = none then ConfigDefault.Stream else cfg.Stream := by
  simp [configDefault]

lemma configDefault_Next (cfg : Config) :
    (configDefault [cfg]).Next = cfg.Next := by
  simp [configDefault]
  intro h; simp [ConfigDefault, h]

lemma configDefault_Skip (cfg : Config) :
    (configDefault [cfg]).Skip = cfg.Skip := by
  simp [configDefault]
  intro h; simp [ConfigDefault, h]

lemma configDefault_Done (cfg : Config) :
    (configDefault [cfg]).Done = cfg.Done := by
  simp [configDefault]
  intro h; simp [ConfigDefault, h]

lemma configDefault_CustomTags (cfg : Config) :
    (configDefault [cfg]).CustomTags = cfg.CustomTags := by
  simp [configDefault]

lemma configDefault_BeforeHandlerFunc (cfg : Config) :
    (configDefault [cfg]).BeforeHandlerFunc =
      if cfg.BeforeHandlerFunc = none then some beforeHandlerFunc else cfg.BeforeHandlerFunc := by
  simp [configDefault, ConfigDefault]

lemma configDefault_LoggerFunc (cfg : Config) :
    (configDefault [cfg]).LoggerFunc =
      if cfg.LoggerFunc = none then some defaultLoggerInstance else cfg.LoggerFunc := by
  simp [configDefault, ConfigDefault]

lemma configDefault_timeZoneLocation (cfg : Config) :
    (configDefault [cfg]).timeZoneLocation = cfg.timeZoneLocation := by
  simp [configDefault]

lemma configDefault_Format (cfg : Config) :
    (configDefault [cfg]).Format = if cfg.Format = "" then defaultFormat else cfg.Format := by
  simp [configDefault, ConfigDefault]

lemma configDefault_TimeFormat (cfg : Config) :
    (configDefault [cfg]).TimeFormat = if cfg.TimeFormat = "" then "15:04:05" else cfg.TimeFormat := by
  simp [configDefault, ConfigDefault]

lemma configDefault_TimeZone (cfg : Config) :
    (configDefault [cfg]).TimeZone = if cfg.TimeZone = "" then "Local" else cfg.TimeZone := by
  simp [configDefault, ConfigDefault]

lemma configDefault_TimeInterval (cfg : Config) :
    (configDefault [cfg]).TimeInterval =
      if cfg.TimeInterval ≤ 0 then 500 * millisecond else cfg.TimeInterval := by
  simp [configDefault, ConfigDefault]

lemma configDefault_DisableColors (cfg : Config) :
    (configDefault [cfg]).DisableColors = cfg.DisableColors := by
  simp [configDefault]

lemma configDefault_enableColors (cfg : Config) :
    (configDefault [cfg]).enableColors =
      if ¬cfg.DisableColors ∧ (cfg.Stream = none ∨ cfg.Stream = some osStdout) then true
      else cfg.enableColors := by
  simp [configDefault, ConfigDefault]

lemma configDefault_enableLatency (cfg : Config) :
    (configDefault [cfg]).enableLatency = cfg.enableLatency := by
  simp [configDefault]

lemma configDefault_Stream_ne (cfg : Config) : (configDefault [cfg]).Stream ≠ none := by
  rw [configDefault_Stream]
  split_ifs with h <;> simp_all [ConfigDefault]

lemma configDefault_Format_ne (cfg : Config) : (configDefault [cfg]).Format ≠ "" := by
  rw [configDefault_Format]
  split_ifs with h <;> simp_all [defaultFormat]

lemma configDefault_TimeFormat_ne (cfg : Config) : (configDefault [cfg]).TimeFormat ≠ "" := by
  rw [configDefault_TimeFormat]
  split_ifs with h <;> simp_all

lemma configDefault_TimeZone_ne (cfg : Config) : (configDefault [cfg]).TimeZone ≠ "" := by
  rw [configDefault_TimeZone]
  split_ifs with h <;> simp_all

lemma configDefault_TimeInterval_pos (cfg : Config) : 0 < (configDefault [cfg]).TimeInterval := by
  rw [configDefault_TimeInterval]
  split_ifs with h
  · decide
  · omega

lemma configDefault_BeforeHandlerFunc_ne (cfg : Config) :
    (configDefault [cfg]).BeforeHandlerFunc ≠ none := by
  rw [configDefault_BeforeHandlerFunc]
  split_ifs with h <;> simp_all

lemma configDefault_LoggerFunc_ne (cfg : Config) : (configDefault [cfg]).LoggerFunc ≠ none := by
  rw [configDefault_LoggerFunc]
  split_ifs with h <;> simp_all

/-- Claim C1 is false on the code: at the all-zero config, whose `Format`
field is the empty string, the config returned by `configDefault` does not
have an empty `Format` — the empty string is read as "use defaults". -/
theorem C1_counterexample :
    zeroConfig.Format = "" ∧ (configDefault [zeroConfig]).Format ≠ "" := by
  constructor
  · rfl
  · decide

/-- Claim C1, amended: for every user-supplied `Config` whose `Format`
field is the empty string, `configDefault` treats the empty string as an
unset field and replaces it with the default format string; an empty
format is not preserved as "no formatting". -/
theorem C1_empty_format_replaced (cfg : Config) (h : cfg.Format = "") :
    (configDefault [cfg]).Format = defaultFormat := by
  rw [configDefault_Format, if_pos h]

/-- Witness for the amended claim C1 at the all-zero config. -/
theorem C1_witness :
    zeroConfig.Format = "" ∧ (configDefault [zeroConfig]).Format = defaultFormat :=
  ⟨rfl, C1_empty_format_replaced zeroConfig rfl⟩

/-- Claim C2: for every `Config` whose `TimeInterval` is zero or negative,
`configDefault` replaces it with the default of 500 milliseconds (the
function is total, so no error is raised or returned); for every `Config`
whose `TimeInterval` is strictly positive, the interval is kept. -/
theorem C2_time_interval (cfg : Config) :
    (cfg.TimeInterval ≤ 0 → (configDefault [cfg]).TimeInterval = 500 * millisecond) ∧
    (0 < cfg.TimeInterval → (configDefault [cfg]).TimeInterval = cfg.TimeInterval) := by
  rw [configDefault_TimeInterval]
  constructor
  · intro h; rw [if_pos h]
  · intro h; rw [if_neg (by omega)]

/-- Witness for claim C2: the zero interval of `zeroConfig` is replaced by
500 milliseconds, and the positive interval of `customConfig` is kept. -/
theorem C2_witness :
    (zeroConfig.TimeInterval ≤ 0 ∧ (configDefault [zeroConfig]).TimeInterval = 500 * millisecond) ∧
    (0 < customConfig.TimeInterval ∧
      (configDefault [customConfig]).TimeInterval = customConfig.TimeInterval) :=
  ⟨⟨by decide, (C2_time_interval zeroConfig).1 (by decide)⟩,
   ⟨by decide, (C2_time_interval customConfig).2 (by decide)⟩⟩

/-- Claim C3: for every `Config` whose internal `enableColors` flag starts
disabled, the resolved config has colors enabled if and only if
`DisableColors` is false and the sink is the default stream — left unset
(`none`, defaulted to `os.Stdout`) or set to `os.Stdout` itself. -/
theorem C3_colors_iff (cfg : Config) (h : cfg.enableColors = false) :
    ((configDefault [cfg]).enableColors = true ↔
      (cfg.DisableColors = false ∧ (cfg.Stream = none ∨ cfg.Stream = some osStdout))) := by
  rw [configDefault_enableColors]
  split_ifs with hc <;> simp_all

/-- Witness for claim C3: the all-zero config starts with colors disabled
and resolves with colors enabled. -/
theorem C3_witness :
    zeroConfig.enableColors = false ∧ (configDefault [zeroConfig]).enableColors = true :=
  ⟨rfl, (C3_colors_iff zeroConfig rfl).mpr (by decide)⟩

/-- Claim C4: each unset (zero-valued) field resolves to its documented
default: a nil `Stream` becomes `os.Stdout`, nil `Next`/`Skip`/`Done` stay
nil, an empty `TimeFormat` becomes "15:04:05", an empty `TimeZone` becomes
"Local", a non-positive `TimeInterval` becomes 500 milliseconds, and
calling the resolver with no config at all yields `ConfigDefault`. -/
theorem C4_defaults (cfg : Config) :
    (cfg.Stream = none → (configDefault [cfg]).Stream = some osStdout) ∧
    (cfg.Next = none → (configDefault [cfg]).Next = none) ∧
    (cfg.Skip = none → (configDefault [cfg]).Skip = none) ∧
    (cfg.Done = none → (configDefault [cfg]).Done = none) ∧
    (cfg.TimeFormat = "" → (configDefault [cfg]).TimeFormat = "15:04:05") ∧
    (cfg.TimeZone = "" → (configDefault [cfg]).TimeZone = "Local") ∧
    (cfg.TimeInterval ≤ 0 → (configDefault [cfg]).TimeInterval = 500 * millisecond) ∧
    configDefault [] = ConfigDefault := by
  refine ⟨?_, ?_, ?_, ?_, ?_, ?_, ?_, rfl⟩ <;> intro h <;>
    simp [configDefault_Stream, configDefault_Next, configDefault_Skip, configDefault_Done,
      configDefault_TimeFormat, configDefault_TimeZone, configDefault_TimeInterval, h,
      ConfigDefault]

/-- Witness for claim C4 at the all-zero config. -/
theorem C4_witness :
    (configDefault [zeroConfig]).Stream = some osStdout ∧
    (configDefault [zeroConfig]).Next = none ∧
    (configDefault [zeroConfig]).Skip = none ∧
    (configDefault [zeroConfig]).Done = none ∧
    (configDefault [zeroConfig]).TimeFormat = "15:04:05" ∧
    (configDefault [zeroConfig]).TimeZone = "Local" ∧
    (configDefault [zeroConfig]).TimeInterval = 500 * millisecond :=
  ⟨(C4_defaults zeroConfig).1 rfl,
   (C4_defaults zeroConfig).2.1 rfl,
   (C4_defaults zeroConfig).2.2.1 rfl,
   (C4_defaults zeroConfig).2.2.2.1 rfl,
   (C4_defaults zeroConfig).2.2.2.2.1 rfl,
   (C4_defaults zeroConfig).2.2.2.2.2.1 rfl,
   (C4_defaults zeroConfig).2.2.2.2.2.2.1 (by decide)⟩

/-- Claim C5: the default format string is exactly
`"[${time}] ${ip} ${status} - ${latency} ${method} ${path} ${error}\n"`,
trailing newline included, and it is the `Format` of `ConfigDefault`. -/
theorem C5_default_format :
    defaultFormat = "[${time}] ${ip} ${status} - ${latency} ${method} ${path} ${error}\n" ∧
    ConfigDefault.Format = defaultFormat :=
  ⟨rfl, rfl⟩

/-- Claim C6: `configDefault` preserves every caller-specified setting:
each non-empty string field, each non-nil handle or callback, a positive
`TimeInterval`, and the `DisableColors` flag appear unchanged in the
returned `Config`. -/
theorem C6_preserves (cfg : Config) :
    (cfg.Format ≠ "" → (configDefault [cfg]).Format = cfg.Format) ∧
    (cfg.TimeFormat ≠ "" → (configDefault [cfg]).TimeFormat = cfg.TimeFormat) ∧
    (cfg.TimeZone ≠ "" → (configDefault [cfg]).TimeZone = cfg.TimeZone) ∧
    (cfg.Stream ≠ none → (configDefault [cfg]).Stream = cfg.Stream) ∧
    (cfg.Next ≠ none → (configDefault [cfg]).Next = cfg.Next) ∧
    (cfg.Skip ≠ none → (configDefault [cfg]).Skip = cfg.Skip) ∧
    (cfg.Done ≠ none → (configDefault [cfg]).Done = cfg.Done) ∧
    (cfg.BeforeHandlerFunc ≠ none →
      (configDefault [cfg]).BeforeHandlerFunc = cfg.BeforeHandlerFunc) ∧
    (cfg.LoggerFunc ≠ none → (configDefault [cfg]).LoggerFunc = cfg.LoggerFunc) ∧
    (0 < cfg.TimeInterval → (configDefault [cfg]).TimeInterval = cfg.TimeInterval) ∧
    (configDefault [cfg]).DisableColors = cfg.DisableColors := by
  refine ⟨?_, ?_, ?_, ?_, ?_, ?_, ?_, ?_, ?_, ?_, configDefault_DisableColors cfg⟩ <;> intro h
  · rw [configDefault_Format, if_neg h]
  · rw [configDefault_TimeFormat, if_neg h]
  · rw [configDefault_TimeZone, if_neg h]
  · rw [configDefault_Stream, if_neg h]
  · exact configDefault_Next cfg
  · exact configDefault_Skip cfg
  · exact configDefault_Done cfg
  · rw [configDefault_BeforeHandlerFunc, if_neg h]
  · rw [configDefault_LoggerFunc, if_neg h]
  · rw [configDefault_TimeInterval, if_neg (by omega)]

/-- Witness for claim C6 at `customConfig`, where every field is set. -/
theorem C6_witness :
    (configDefault [customConfig]).Format = customConfig.Format ∧
    (configDefault [customConfig]).TimeFormat = customConfig.TimeFormat ∧
    (configDefault [customConfig]).TimeZone = customConfig.TimeZone ∧
    (configDefault [customConfig]).Stream = customConfig.Stream ∧
    (configDefault [customConfig]).Next = customConfig.Next ∧
    (configDefault [customConfig]).Skip = customConfig.Skip ∧
    (configDefault [customConfig]).Done = customConfig.Done ∧
    (configDefault [customConfig]).BeforeHandlerFunc = customConfig.BeforeHandlerFunc ∧
    (configDefault [customConfig]).LoggerFunc = customConfig.LoggerFunc ∧
    (configDefault [customConfig]).TimeInterval = customConfig.TimeInterval ∧
    (configDefault [customConfig]).DisableColors = customConfig.DisableColors :=
  ⟨(C6_preserves customConfig).1 (by decide),
   (C6_preserves customConfig).2.1 (by decide),
   (C6_preserves customConfig).2.2.1 (by decide),
   (C6_preserves customConfig).2.2.2.1 (by decide),
   (C6_preserves customConfig).2.2.2.2.1 (by decide),
   (C6_preserves customConfig).2.2.2.2.2.1 (by decide),
   (C6_preserves customConfig).2.2.2.2.2.2.1 (by decide),
   (C6_preserves customConfig).2.2.2.2.2.2.2.1 (by decide),
   (C6_preserves customConfig).2.2.2.2.2.2.2.2.1 (by decide),
   (C6_preserves customConfig).2.2.2.2.2.2.2.2.2.1 (by decide),
   (C6_preserves customConfig).2.2.2.2.2.2.2.2.2.2⟩

/-- Claim C7: the resolved configuration is always well-formed: for every
input `Config`, and for the call with no config at all, the result has a
non-nil `Stream`, non-empty `TimeFormat` and `TimeZone`, a strictly
positive `TimeInterval`, and non-nil `BeforeHandlerFunc` and
`LoggerFunc`. -/
theorem C7_wellformed (cfg : Config) :
    ((configDefault [cfg]).Stream ≠ none ∧
     (configDefault [cfg]).TimeFormat ≠ "" ∧
     (configDefault [cfg]).TimeZone ≠ "" ∧
     0 < (configDefault [cfg]).TimeInterval ∧
     (configDefault [cfg]).BeforeHandlerFunc ≠ none ∧
     (configDefault [cfg]).LoggerFunc ≠ none) ∧
    ((configDefault []).Stream ≠ none ∧
     (configDefault []).TimeFormat ≠ "" ∧
     (configDefault []).TimeZone ≠ "" ∧
     0 < (configDefault []).TimeInterval ∧
     (configDefault []).BeforeHandlerFunc ≠ none ∧
     (configDefault []).LoggerFunc ≠ none) :=
  ⟨⟨configDefault_Stream_ne cfg, configDefault_TimeFormat_ne cfg, configDefault_TimeZone_ne cfg,
    configDefault_TimeInterval_pos cfg, configDefault_BeforeHandlerFunc_ne cfg,
    configDefault_LoggerFunc_ne cfg⟩,
   by decide⟩

/-- Claim C8: `configDefault` is idempotent — resolving an already
resolved configuration changes nothing. -/
theorem C8_idempotent (cfg : Config) :
    configDefault [configDefault [cfg]] = configDefault [cfg] := by
  ext : 1
  · rw [configDefault_Stream, if_neg (configDefault_Stream_ne cfg)]
  · exact configDefault_Next (configDefault [cfg])
  · exact configDefault_Skip (configDefault [cfg])
  · exact configDefault_Done (configDefault [cfg])
  · exact configDefault_CustomTags (configDefault [cfg])
  · rw [configDefault_BeforeHandlerFunc, if_neg (configDefault_BeforeHandlerFunc_ne cfg)]
  · rw [configDefault_LoggerFunc, if_neg (configDefault_LoggerFunc_ne cfg)]
  · exact configDefault_timeZoneLocation (configDefault [cfg])
  · rw [configDefault_Format, if_neg (configDefault_Format_ne cfg)]
  · rw [configDefault_TimeFormat, if_neg (configDefault_TimeFormat_ne cfg)]
  · rw [configDefault_TimeZone, if_neg (configDefault_TimeZone_ne cfg)]
  · rw [configDefault_TimeInterval,
      if_neg (by have := configDefault_TimeInterval_pos cfg; omega)]
  · exact configDefault_DisableColors (configDefault [cfg])
  · simp only [configDefault_enableColors, configDefault_DisableColors, configDefault_Stream,
      ConfigDefault]
    by_cases h1 : cfg.DisableColors <;> by_cases h2 : cfg.Stream = none <;>
      by_cases h3 : cfg.Stream = some osStdout <;> simp_all
  · exact configDefault_enableLatency (configDefault [cfg])

/-- Claim C9: defaulting is monotone on the internal color flag: it only
ever sets `enableColors` to true and never clears it, so a config whose
`enableColors` is already true resolves with `enableColors` still true. -/
theorem C9_colors_monotone (cfg : Config) (h : cfg.enableColors = true) :
    (configDefault [cfg]).enableColors = true := by
  rw [configDefault_enableColors]
  split_ifs <;> simp [h]

/-- Witness for claim C9 at `customConfig`, whose `enableColors` is true
even though `DisableColors` is set and the sink is not `os.Stdout`. -/
theorem C9_witness :
    customConfig.enableColors = true ∧ customConfig.DisableColors = true ∧
    customConfig.Stream ≠ some osStdout ∧
    (configDefault [customConfig]).enableColors = true :=
  ⟨rfl, rfl, by decide, C9_colors_monotone customConfig rfl⟩

/-- Claim C10: `configDefault` returns the `CustomTags` mapping exactly as
supplied — a nil mapping stays nil and no entries change. -/
theorem C10_custom_tags (cfg : Config) :
    (configDefault [cfg]).CustomTags = cfg.CustomTags :=
  configDefault_CustomTags cfg
